import Mathlib

/-!
Verification of the per-service request classification and span-metadata
dispatch mechanism of an OpenTelemetry instrumentation library.

The development shallowly embeds the relevant source files:

* `plugins/node/opentelemetry-instrumentation-aws-sdk/src/services/kinesis.ts`
  — the Kinesis service extension (`KinesisServiceExtension.requestPreSpanHook`);
* `packages/opentelemetry-id-generator-aws-xray/src/platform/browser/AWSXRayIdGenerator.ts`
  — the random hex-identifier byte-formatting routine (`generateRandomBytes`,
  which writes through a module-level shared array) and, from the same source
  slice, the Azure VM resource detector (`AzureVmResourceDetector.getAzureVmMetadata`).

JavaScript records are modelled as association lists, optional/undefined
fields as `Option`, and the module-level mutable character-code array as an
explicit piece of state (`Nat → Nat`) that is threaded through the routine.
-/

/-- Span kinds of the tracing API (`@opentelemetry/api` `SpanKind`). -/
inductive SpanKind where
  | INTERNAL
  | SERVER
  | CLIENT
  | PRODUCER
  | CONSUMER
deriving DecidableEq, Repr

/-- Attribute mapping: attribute key to primitive (string) value.  The
source builds a plain JS object; we model it as an association list. -/
abbrev Attributes := List (String × String)

/-- `NormalizedRequest` from the instrumentation's `types.ts`: the uniform
shape of one intercepted call.  `commandInput` is the raw parameter object
(possibly absent, hence `Option`); its string-valued fields are modelled as
an association list, where a missing key models an `undefined` field. -/
structure NormalizedRequest where
  serviceName : String
  commandName : String
  commandInput : Option (List (String × String))
  region : Option String
deriving DecidableEq, Repr

/-- `RequestMetadata` returned by a service extension's pre-span hook. -/
structure RequestMetadata where
  isIncoming : Bool
  spanAttributes : Attributes
  spanKind : SpanKind
deriving DecidableEq, Repr

/-- Read-only instrumentation options record
(`AwsSdkInstrumentationConfig`); the Kinesis hook ignores it. -/
structure AwsSdkInstrumentationConfig where
  suppressInternalInstrumentation : Bool
deriving DecidableEq, Repr

/-- `AttributeNames.AWS_KINESIS_STREAM_NAME` from the instrumentation's
`enums.ts`. -/
def AWS_KINESIS_STREAM_NAME : String := "aws.kinesis.stream.name"

/-- JavaScript truthiness for an optional string field: `undefined` and the
empty string are falsy, every other string is truthy. -/
def truthyStr : Option String → Bool
  | none => false
  | some s => s ≠ ""

/-- `KinesisServiceExtension.requestPreSpanHook` (kinesis.ts lines 22–41).
`request.commandInput?.StreamName` is the optional-chained field read; the
attribute object starts empty and receives the stream-name entry only under
the truthiness guard; span kind is the `CLIENT` constant and `isIncoming`
the constant `false`. -/
def KinesisServiceExtension.requestPreSpanHook
    (request : NormalizedRequest) (_config : AwsSdkInstrumentationConfig) :
    RequestMetadata :=
  let streamName : Option String :=
    request.commandInput.bind (fun ci => ci.lookup "StreamName")
  let spanKind : SpanKind := SpanKind.CLIENT
  let spanAttributes : Attributes := []
  let spanAttributes : Attributes :=
    if truthyStr streamName then
      spanAttributes ++ [(AWS_KINESIS_STREAM_NAME, streamName.getD "")]
    else spanAttributes
  let isIncoming : Bool := false
  { isIncoming := isIncoming, spanAttributes := spanAttributes,
    spanKind := spanKind }

/-- State-passing form of the same hook: the source performs no assignment
to `request` or `config` (its only writes target the locally allocated
`spanAttributes` object), so the embedding threads both inputs through and
returns them alongside the result. -/
def KinesisServiceExtension.requestPreSpanHookSt
    (request : NormalizedRequest) (config : AwsSdkInstrumentationConfig) :
    RequestMetadata × NormalizedRequest × AwsSdkInstrumentationConfig :=
  let streamName : Option String :=
    request.commandInput.bind (fun ci => ci.lookup "StreamName")
  let spanKind : SpanKind := SpanKind.CLIENT
  let spanAttributes : Attributes := []
  let spanAttributes : Attributes :=
    if truthyStr streamName then
      spanAttributes ++ [(AWS_KINESIS_STREAM_NAME, streamName.getD "")]
    else spanAttributes
  let isIncoming : Bool := false
  ({ isIncoming := isIncoming, spanAttributes := spanAttributes,
     spanKind := spanKind }, request, config)

/-- C1: a request whose command input holds a non-empty `StreamName`
yields exactly the singleton stream-name attribute, span kind `CLIENT`
and `isIncoming = false`. -/
theorem kinesis_hook_streamName_present
    (request : NormalizedRequest) (config : AwsSdkInstrumentationConfig)
    (ci : List (String × String)) (s : String)
    (hci : request.commandInput = some ci)
    (hs : ci.lookup "StreamName" = some s) (hne : s ≠ "") :
    KinesisServiceExtension.requestPreSpanHook request config =
      { isIncoming := false,
        spanAttributes := [(AWS_KINESIS_STREAM_NAME, s)],
        spanKind := SpanKind.CLIENT } := by
  unfold KinesisServiceExtension.requestPreSpanHook
  simp [hci, hs, truthyStr, hne]

/-- Witness for C1: the scenario request targeting stream
`orders-stream`. -/
theorem kinesis_hook_streamName_present_witness :
    KinesisServiceExtension.requestPreSpanHook
      { serviceName := "Kinesis", commandName := "PutRecord",
        commandInput := some [("StreamName", "orders-stream")],
        region := some "us-east-1" }
      { suppressInternalInstrumentation := false } =
      { isIncoming := false,
        spanAttributes := [(AWS_KINESIS_STREAM_NAME, "orders-stream")],
        spanKind := SpanKind.CLIENT } :=
  kinesis_hook_streamName_present _ _ [("StreamName", "orders-stream")]
    "orders-stream" rfl rfl (by decide)

/-- C2: when the `StreamName` field is absent (no command input, or no
such key) or empty, the returned metadata carries no attribute at all,
with span kind `CLIENT` and `isIncoming = false`. -/
theorem kinesis_hook_streamName_absent
    (request : NormalizedRequest) (config : AwsSdkInstrumentationConfig)
    (habs : request.commandInput = none ∨
      ∃ ci, request.commandInput = some ci ∧
        (ci.lookup "StreamName" = none ∨ ci.lookup "StreamName" = some "")) :
    KinesisServiceExtension.requestPreSpanHook request config =
      { isIncoming := false, spanAttributes := [],
        spanKind := SpanKind.CLIENT } := by
  unfold KinesisServiceExtension.requestPreSpanHook
  rcases habs with h | ⟨ci, hci, h | h⟩
  · simp [h, truthyStr]
  · simp [hci, h, truthyStr]
  · simp [hci, h, truthyStr]

/-- Witness for C2: the scenario request with no resource-identifying
field. -/
theorem kinesis_hook_streamName_absent_witness :
    KinesisServiceExtension.requestPreSpanHook
      { serviceName := "Kinesis", commandName := "ListStreams",
        commandInput := some [("Limit", "10")], region := none }
      { suppressInternalInstrumentation := false } =
      { isIncoming := false, spanAttributes := [],
        spanKind := SpanKind.CLIENT } :=
  kinesis_hook_streamName_absent _ _
    (Or.inr ⟨[("Limit", "10")], rfl, Or.inl rfl⟩)

/-- C3: the pre-span hook is deterministic — identical request and config
inputs always produce identical metadata. -/
theorem kinesis_hook_deterministic
    (r₁ r₂ : NormalizedRequest) (c₁ c₂ : AwsSdkInstrumentationConfig)
    (hr : r₁ = r₂) (hc : c₁ = c₂) :
    KinesisServiceExtension.requestPreSpanHook r₁ c₁ =
      KinesisServiceExtension.requestPreSpanHook r₂ c₂ := by
  rw [hr, hc]

/-- Witness for C3: two textually separate but equal invocations agree. -/
theorem kinesis_hook_deterministic_witness :
    KinesisServiceExtension.requestPreSpanHook
      { serviceName := "Kinesis", commandName := "PutRecord",
        commandInput := some [("StreamName", "s")], region := none }
      { suppressInternalInstrumentation := true } =
    KinesisServiceExtension.requestPreSpanHook
      { serviceName := "Kinesis", commandName := "PutRecord",
        commandInput := some [("StreamName", "s")], region := none }
      { suppressInternalInstrumentation := true } :=
  kinesis_hook_deterministic _ _ _ _ rfl rfl

/-- Counterexample to C4: on the Kinesis stream-write operation
(`PutRecord` naming a target stream) the hook returns span kind `CLIENT`,
not `PRODUCER` as the claim's streaming-service span-kind policy demands. -/
theorem kinesis_hook_not_producer_counterexample :
    (KinesisServiceExtension.requestPreSpanHook
      { serviceName := "Kinesis", commandName := "PutRecord",
        commandInput := some [("StreamName", "orders-stream")],
        region := none }
      { suppressInternalInstrumentation := false }).spanKind =
        SpanKind.CLIENT ∧
    (KinesisServiceExtension.requestPreSpanHook
      { serviceName := "Kinesis", commandName := "PutRecord",
        commandInput := some [("StreamName", "orders-stream")],
        region := none }
      { suppressInternalInstrumentation := false }).spanKind ≠
        SpanKind.PRODUCER := by
  constructor
  · rfl
  · decide

/-- C4 (amended): the Kinesis extension's pre-span hook selects span kind
`CLIENT` for every request — writes and reads alike; it never selects
`PRODUCER` or `CONSUMER`. -/
theorem kinesis_hook_spanKind_always_client
    (request : NormalizedRequest) (config : AwsSdkInstrumentationConfig) :
    (KinesisServiceExtension.requestPreSpanHook request config).spanKind =
      SpanKind.CLIENT := by
  rfl

/-- C5: the hook is total and defensive — for every request, even one with
no command input at all or with no `StreamName` parameter, it returns a
well-formed metadata record (`isIncoming = false`, span kind `CLIENT`),
and an absent command input is treated as an absent field (no attribute),
never as an error. -/
theorem kinesis_hook_total
    (request : NormalizedRequest) (config : AwsSdkInstrumentationConfig) :
    ∃ m : RequestMetadata,
      KinesisServiceExtension.requestPreSpanHook request config = m ∧
      m.isIncoming = false ∧ m.spanKind = SpanKind.CLIENT ∧
      (request.commandInput = none → m.spanAttributes = []) := by
  refine ⟨KinesisServiceExtension.requestPreSpanHook request config,
    rfl, ?_, ?_, ?_⟩
  · rfl
  · rfl
  · intro h
    unfold KinesisServiceExtension.requestPreSpanHook
    simp [h, truthyStr]

/-- Witness for C5: the hook evaluated on a request whose command input is
entirely absent. -/
theorem kinesis_hook_total_witness :
    ∃ m : RequestMetadata,
      KinesisServiceExtension.requestPreSpanHook
        { serviceName := "Kinesis", commandName := "PutRecord",
          commandInput := none, region := none }
        { suppressInternalInstrumentation := false } = m ∧
      m.isIncoming = false ∧ m.spanKind = SpanKind.CLIENT ∧
      (({ serviceName := "Kinesis", commandName := "PutRecord",
          commandInput := none, region := none } :
            NormalizedRequest).commandInput = none →
        m.spanAttributes = []) :=
  kinesis_hook_total
    { serviceName := "Kinesis", commandName := "PutRecord",
      commandInput := none, region := none }
    { suppressInternalInstrumentation := false }

/-- C6: the hook mutates neither input — in the state-passing embedding the
request (its command input included) and the configuration record come back
unchanged from every invocation. -/
theorem kinesis_hook_frame
    (request : NormalizedRequest) (config : AwsSdkInstrumentationConfig) :
    (KinesisServiceExtension.requestPreSpanHookSt request config).2.1 =
      request ∧
    (KinesisServiceExtension.requestPreSpanHookSt request config).2.2 =
      config := by
  unfold KinesisServiceExtension.requestPreSpanHookSt
  exact ⟨rfl, rfl⟩

/-- `TRACE_ID_BYTES` from `xray-id-generation`: a trace identifier is 16
random bytes (32 hex characters). -/
def TRACE_ID_BYTES : Nat := 16

/-- One loop iteration's character code: the draw is
`Math.floor(Math.random() * 16)`; the source stores `draw + 48` and then
adds 39 whenever the stored code is at least 58, mapping draws 0–9 to
codes 48–57 and draws 10–15 to codes 97–102. -/
def hexCharCode (draw : Nat) : Nat :=
  let c := draw + 48
  if c ≥ 58 then c + 39 else c

/-- The write loop of `generateRandomBytes`: after `n` iterations every
index below `n` of the shared array holds the hex character code of its
draw, while all other indices keep their previous contents.  The shared
module-level array is modelled as a total map from index to character
code. -/
def writeLoop (draws : Nat → Nat) (buf : Nat → Nat) : Nat → (Nat → Nat)
  | 0 => buf
  | n + 1 => fun j =>
      if j = n then hexCharCode (draws n) else writeLoop draws buf n j

/-- `generateRandomBytes` (AWSXRayIdGenerator.ts lines 50–63): runs the
write loop for `bytes * 2` iterations over the shared array (`draws i` is
the value of the `i`-th `Math.random` draw, already floored to 0–15), then
returns the character codes of `SHARED_CHAR_CODES_ARRAY.slice(0, bytes*2)`
together with the shared array's new contents. -/
def generateRandomBytes (bytes : Nat) (draws : Nat → Nat)
    (buf : Nat → Nat) : List Nat × (Nat → Nat) :=
  let buf' := writeLoop draws buf (bytes * 2)
  ((List.range (bytes * 2)).map buf', buf')

/-- After `n` iterations of the write loop, every index below `n` holds the
hex code of its draw, whatever the array held before. -/
theorem writeLoop_get_lt (draws : Nat → Nat) (buf : Nat → Nat) :
    ∀ n j, j < n → writeLoop draws buf n j = hexCharCode (draws j) := by
  intro n
  induction n with
  | zero => intro j hj; omega
  | succ n ih =>
      intro j hj
      by_cases hjn : j = n
      · subst hjn; simp [writeLoop]
      · have hlt : j < n := by omega
        simp [writeLoop, hjn, ih j hlt]

/-- C7: the routine is observably stateless — the returned string is the
hex encoding of exactly the `bytes * 2` draws of this call, so two calls
with the same draws but different residual shared-array contents return
the same string; residual bytes never leak into the result. -/
theorem generateRandomBytes_stateless (bytes : Nat) (draws : Nat → Nat)
    (buf₁ buf₂ : Nat → Nat) :
    (generateRandomBytes bytes draws buf₁).1 =
      (List.range (bytes * 2)).map (fun i => hexCharCode (draws i)) ∧
    (generateRandomBytes bytes draws buf₁).1 =
      (generateRandomBytes bytes draws buf₂).1 := by
  have h : ∀ buf : Nat → Nat,
      (generateRandomBytes bytes draws buf).1 =
        (List.range (bytes * 2)).map (fun i => hexCharCode (draws i)) := by
    intro buf
    unfold generateRandomBytes
    refine List.map_congr_left ?_
    intro i hi
    exact writeLoop_get_lt draws buf (bytes * 2) i (List.mem_range.mp hi)
  exact ⟨h buf₁, (h buf₁).trans (h buf₂).symm⟩

/-- Every in-range draw produces a lowercase hexadecimal character code. -/
theorem hexCharCode_valid (d : Nat) (hd : d < 16) :
    (48 ≤ hexCharCode d ∧ hexCharCode d ≤ 57) ∨
    (97 ≤ hexCharCode d ∧ hexCharCode d ≤ 102) := by
  unfold hexCharCode
  by_cases h : d + 48 ≥ 58
  · right; simp [h]; omega
  · left; simp [h]; omega

/-- C9: for every byte count and every possible sequence of draws (each
draw is `Math.floor` of `Math.random() * 16`, hence below 16), the result
has length exactly `bytes * 2` and every character code is a lowercase
hex digit: 48–57 for 0–9 or 97–102 for a–f. -/
theorem generateRandomBytes_hex (bytes : Nat) (draws : Nat → Nat)
    (buf : Nat → Nat) (hd : ∀ i, draws i < 16) :
    (generateRandomBytes bytes draws buf).1.length = bytes * 2 ∧
    ∀ c ∈ (generateRandomBytes bytes draws buf).1,
      (48 ≤ c ∧ c ≤ 57) ∨ (97 ≤ c ∧ c ≤ 102) := by
  constructor
  · unfold generateRandomBytes
    simp
  · intro c hc
    unfold generateRandomBytes at hc
    simp only [List.mem_map, List.mem_range] at hc
    obtain ⟨i, hi, hci⟩ := hc
    rw [← hci, writeLoop_get_lt draws buf (bytes * 2) i hi]
    exact hexCharCode_valid (draws i) (hd i)

/-- Witness for C9: one byte formatted from the draw stream `i % 16` over
an arbitrary residual buffer of zeros. -/
theorem generateRandomBytes_hex_witness :
    (generateRandomBytes 1 (fun i => i % 16) (fun _ => 0)).1.length =
      1 * 2 ∧
    ∀ c ∈ (generateRandomBytes 1 (fun i => i % 16) (fun _ => 0)).1,
      (48 ≤ c ∧ c ≤ 57) ∨ (97 ≤ c ∧ c ≤ 102) :=
  generateRandomBytes_hex 1 (fun i => i % 16) (fun _ => 0)
    (fun i => Nat.mod_lt i (by decide))

/-- Modelled from the spec: the Dispatcher's default classification.  The
Dispatcher itself (`instrumentCall`) is not in the provided source slice;
per the spec the default extension yields `CLIENT` kind, minimal
attributes, outgoing. -/
def defaultRequestMetadata : RequestMetadata :=
  { isIncoming := false, spanAttributes := [], spanKind := SpanKind.CLIENT }

/-- Trace of one dispatched call: whether the underlying operation was
invoked, which metadata classified the span, and the underlying call's own
result, which the Dispatcher must hand back unchanged. -/
structure CallOutcome (ρ : Type) where
  invokedUnderlying : Bool
  metadataUsed : RequestMetadata
  result : ρ
deriving Repr

/-- Modelled from the spec: `instrumentCall` of the Dispatcher (not in the
provided source slice).  Per spec section 4.4 it invokes the extension's
`requestPreSpanHook` inside a failure boundary — a throwing hook (modelled
as `Except.error`) is replaced by the default classification — then always
invokes the underlying operation and returns that call's own result. -/
def instrumentCall {ρ : Type}
    (hook : NormalizedRequest → AwsSdkInstrumentationConfig →
      Except String RequestMetadata)
    (request : NormalizedRequest) (config : AwsSdkInstrumentationConfig)
    (underlyingInvoke : ρ) : CallOutcome ρ :=
  let metadata :=
    match hook request config with
    | Except.ok m => m
    | Except.error _ => defaultRequestMetadata
  { invokedUnderlying := true, metadataUsed := metadata,
    result := underlyingInvoke }

/-- C8: a hook that throws is caught at the Dispatcher boundary — the
default classification is substituted, the underlying operation is still
invoked, and its own result comes back unchanged. -/
theorem instrumentCall_hook_error {ρ : Type}
    (hook : NormalizedRequest → AwsSdkInstrumentationConfig →
      Except String RequestMetadata)
    (request : NormalizedRequest) (config : AwsSdkInstrumentationConfig)
    (underlyingInvoke : ρ) (e : String)
    (hthrow : hook request config = Except.error e) :
    instrumentCall hook request config underlyingInvoke =
      { invokedUnderlying := true, metadataUsed := defaultRequestMetadata,
        result := underlyingInvoke } := by
  unfold instrumentCall
  simp [hthrow]

/-- Witness for C8: a hook that always throws still lets the underlying
call's result (42) through, under the default classification. -/
theorem instrumentCall_hook_error_witness :
    instrumentCall (fun _ _ => Except.error "extension defect")
      { serviceName := "Kinesis", commandName := "PutRecord",
        commandInput := none, region := none }
      { suppressInternalInstrumentation := false } (42 : Nat) =
      { invokedUnderlying := true, metadataUsed := defaultRequestMetadata,
        result := (42 : Nat) } :=
  instrumentCall_hook_error _ _ _ 42 "extension defect" rfl

/-- Attribute name constants used by the Azure VM detector (from the
detector's `types.ts` and the semantic-conventions package). -/
def AZURE_VM_SCALE_SET_NAME_ATTRIBUTE : String := "azure.vm.scaleset.name"

def AZURE_VM_SKU_ATTRIBUTE : String := "azure.vm.sku"

def SEMRESATTRS_CLOUD_PLATFORM : String := "cloud.platform"

def SEMRESATTRS_CLOUD_PROVIDER : String := "cloud.provider"

def SEMRESATTRS_CLOUD_REGION : String := "cloud.region"

def CLOUD_RESOURCE_ID_RESOURCE_ATTRIBUTE : String := "cloud.resource_id"

def SEMRESATTRS_HOST_ID : String := "host.id"

def SEMRESATTRS_HOST_NAME : String := "host.name"

def SEMRESATTRS_HOST_TYPE : String := "host.type"

def SEMRESATTRS_OS_VERSION : String := "os.version"

def CLOUDPLATFORMVALUES_AZURE_VM : String := "azure_vm"

def CLOUDPROVIDERVALUES_AZURE : String := "azure"

/-- The JSON body returned by the Azure instance-metadata endpoint; each
field the detector reads may be absent from the parsed object. -/
structure AzureVmMetadata where
  vmScaleSetName : Option String
  sku : Option String
  location : Option String
  resourceId : Option String
  vmId : Option String
  name : Option String
  vmSize : Option String
  version : Option String
deriving DecidableEq, Repr

/-- The possible outcomes of the metadata HTTP request made inside
`getAzureVmMetadata`: the promise rejects on a socket error, on the 1000 ms
timeout, on a non-2xx status code, or on a JSON parse failure, and resolves
with the parsed metadata otherwise. -/
inductive MetadataRequestOutcome where
  | networkError (message : String)
  | timeout
  | badStatus (statusCode : Nat)
  | malformedJson (message : String)
  | success (metadata : AzureVmMetadata)
deriving DecidableEq, Repr

/-- Resource attributes: attribute name to possibly-undefined value (a key
built from an absent metadata field is still present, with an undefined
value, matching the JS object literal). -/
abbrev DetectedResourceAttributes := List (String × Option String)

/-- The fixed list of the ten Azure resource-attribute names, in the order
the detector's attribute object literal declares them. -/
def azureVmAttributeNames : List String :=
  [AZURE_VM_SCALE_SET_NAME_ATTRIBUTE,
   AZURE_VM_SKU_ATTRIBUTE,
   SEMRESATTRS_CLOUD_PLATFORM,
   SEMRESATTRS_CLOUD_PROVIDER,
   SEMRESATTRS_CLOUD_REGION,
   CLOUD_RESOURCE_ID_RESOURCE_ATTRIBUTE,
   SEMRESATTRS_HOST_ID,
   SEMRESATTRS_HOST_NAME,
   SEMRESATTRS_HOST_TYPE,
   SEMRESATTRS_OS_VERSION]

/-- `AzureVmResourceDetector.getAzureVmMetadata`: the whole body sits in a
try/catch, so every rejection of the awaited metadata promise — network
error, timeout, non-2xx status, malformed JSON — lands in the catch arm,
which logs at debug level and resolves with the empty attribute mapping;
on success the attribute object literal with the ten fixed keys is
resolved. -/
def getAzureVmMetadata (outcome : MetadataRequestOutcome) :
    DetectedResourceAttributes :=
  match outcome with
  | MetadataRequestOutcome.success metadata =>
      [(AZURE_VM_SCALE_SET_NAME_ATTRIBUTE, metadata.vmScaleSetName),
       (AZURE_VM_SKU_ATTRIBUTE, metadata.sku),
       (SEMRESATTRS_CLOUD_PLATFORM, some CLOUDPLATFORMVALUES_AZURE_VM),
       (SEMRESATTRS_CLOUD_PROVIDER, some CLOUDPROVIDERVALUES_AZURE),
       (SEMRESATTRS_CLOUD_REGION, metadata.location),
       (CLOUD_RESOURCE_ID_RESOURCE_ATTRIBUTE, metadata.resourceId),
       (SEMRESATTRS_HOST_ID, metadata.vmId),
       (SEMRESATTRS_HOST_NAME, metadata.name),
       (SEMRESATTRS_HOST_TYPE, metadata.vmSize),
       (SEMRESATTRS_OS_VERSION, metadata.version)]
  | MetadataRequestOutcome.networkError _ => []
  | MetadataRequestOutcome.timeout => []
  | MetadataRequestOutcome.badStatus _ => []
  | MetadataRequestOutcome.malformedJson _ => []

/-- C10: `getAzureVmMetadata` never rejects — it is defined (resolves) on
every request outcome; every failure outcome yields the empty attribute
mapping, and a success yields a mapping whose keys are exactly the ten
fixed Azure resource-attribute names. -/
theorem getAzureVmMetadata_total (outcome : MetadataRequestOutcome) :
    ((∀ m, outcome ≠ MetadataRequestOutcome.success m) →
      getAzureVmMetadata outcome = []) ∧
    (∀ m, outcome = MetadataRequestOutcome.success m →
      (getAzureVmMetadata outcome).map Prod.fst = azureVmAttributeNames) := by
  constructor
  · intro hfail
    cases outcome with
    | success m => exact absurd rfl (hfail m)
    | networkError msg => rfl
    | timeout => rfl
    | badStatus c => rfl
    | malformedJson msg => rfl
  · intro m hm
    subst hm
    rfl

/-- Witness for C10: the timeout outcome resolves with the empty mapping,
and a concrete success outcome resolves with exactly the ten fixed keys. -/
theorem getAzureVmMetadata_total_witness :
    getAzureVmMetadata MetadataRequestOutcome.timeout = [] ∧
    (getAzureVmMetadata (MetadataRequestOutcome.success
      { vmScaleSetName := some "ss", sku := none, location := some "eastus",
        resourceId := some "rid", vmId := some "id", name := some "vm",
        vmSize := none, version := none })).map Prod.fst =
      azureVmAttributeNames := by
  constructor
  · exact (getAzureVmMetadata_total MetadataRequestOutcome.timeout).1
      (fun m h => by cases h)
  · exact (getAzureVmMetadata_total (MetadataRequestOutcome.success
      { vmScaleSetName := some "ss", sku := none, location := some "eastus",
        resourceId := some "rid", vmId := some "id", name := some "vm",
        vmSize := none, version := none })).2 _ rfl
